import Mathlib

/-!
Shallow embedding of drivers/usb/class/usbtmc.c (khainav/linux-usbtmc).

The USB transport is modelled as an oracle: each control or bulk transfer
consumes one scripted response, and every operation additionally records a
trace of the transport interactions it performed.  Machine integers are
modelled as `Nat` with explicit `% 256` where a store into a `u8` occurs.
Errors are negative `Int` return values exactly as in the source.
-/

namespace Usbtmc

/-! ## Constants from usbtmc.c and the Linux errno values it uses -/

def USBTMC_HEADER_SIZE : Nat := 12

/-- Default of the io_buffer_size module parameter (usbtmc.c line 46/53);
usbtmc_probe clamps it to at least 512 and rounds down to a multiple of 4,
which leaves the default 2048 unchanged. -/
def io_buffer_size : Nat := 2048

/-- Minimum USB timeout in milliseconds (USBTMC_MIN_TIMEOUT). -/
def USBTMC_MIN_TIMEOUT : Nat := 500

/-- Default USB timeout in milliseconds (USBTMC_TIMEOUT). -/
def USBTMC_TIMEOUT : Nat := 5000

def USBTMC_MAX_READS_TO_CLEAR_BULK_IN : Nat := 100

/-- Modelled from the spec: tmc.h is not under src/; spec section 6 gives the
one-byte statuses SUCCESS=1, PENDING=2, FAILED=0x81. -/
def USBTMC_STATUS_SUCCESS : Nat := 1

def USBTMC_STATUS_PENDING : Nat := 2

def USBTMC_STATUS_FAILED : Nat := 0x81

/-- Modelled from the spec: tmc.h is not under src/; spec section 4.7 says the
USB488 simple requests are available only if USB488-caps bit 0 ("simple")
is set, so the capability mask is bit 0. -/
def USBTMC488_CAPABILITY_SIMPLE : Nat := 1

/-- Modelled from the spec: tmc.h is not under src/; USB488 request codes. -/
def USBTMC488_REQUEST_READ_STATUS_BYTE : Nat := 128

def USBTMC488_REQUEST_REN_CONTROL : Nat := 160

def USBTMC488_REQUEST_GOTO_LOCAL : Nat := 161

def USBTMC488_REQUEST_LOCAL_LOCKOUT : Nat := 162

def USBTMC_REQUEST_INDICATOR_PULSE : Nat := 64

/-- Linux errno values used by the driver (from the kernel headers). -/
def EPERM : Int := 1

def EIO : Int := 5

def ENOMEM : Int := 12

def EFAULT : Int := 14

def ENODEV : Int := 19

def EINVAL : Int := 22

def EBADRQC : Int := 56

def ETIMEDOUT : Int := 110

/-! ## Device and file-handle state (struct usbtmc_device_data / _file_data) -/

structure Capabilities where
  interface_capabilities : Nat
  device_capabilities : Nat
  usb488_interface_capabilities : Nat
  usb488_device_capabilities : Nat
deriving Repr, DecidableEq

structure DeviceData where
  bulk_in : Nat
  bulk_out : Nat
  bTag : Nat
  bTag_last_write : Nat
  bTag_last_read : Nat
  bNotify1 : Nat
  bNotify2 : Nat
  ifnum : Nat
  iin_bTag : Nat
  iin_data_valid : Bool
  iin_ep_present : Bool
  usb488_caps : Nat
  timeout : Nat
  TermChar : Nat
  TermCharEnabled : Bool
  auto_abort : Bool
  eom_val : Bool
  zombie : Bool
  capabilities : Capabilities
deriving Repr, DecidableEq

structure FileData where
  srq_byte : Nat
  srq_asserted : Bool
  TermChar : Nat
  TermCharEnabled : Bool
  auto_abort : Bool
deriving Repr, DecidableEq

instance : Inhabited FileData := ⟨⟨0, false, 0, false, false⟩⟩

/-! ## Transport events

Each transport interaction an operation performs is recorded in a trace.
The ABORT_BULK_IN / ABORT_BULK_OUT / INITIATE_CLEAR state machines are
recorded as single events where they are invoked from the read/write
engines and the ioctl dispatcher (their multi-step internals are not the
subject of the claims settled here). -/

inductive Ev where
  | controlMsg (bRequest wValue wIndex wLength : Nat)
  | bulkOutSend (bytes : List Nat)
  | bulkInRecv
  | clearHalt (ep : Nat)
  | abortBulkIn
  | abortBulkOut
  | clearDevice
deriving Repr, DecidableEq

/-! ## Tag arithmetic -/

/-- `data->bTag++; if (!data->bTag) data->bTag++;` on a u8. -/
def nextTag (t : Nat) : Nat :=
  let t' := (t + 1) % 256
  if t' = 0 then 1 else t'

/-- `data->iin_bTag += 1; if (data->iin_bTag > 127) data->iin_bTag = 2;` on a u8. -/
def nextIinTag (t : Nat) : Nat :=
  let t' := (t + 1) % 256
  if 127 < t' then 2 else t'

/-- Store of the C int `~t` into a u8, for `t` itself a u8 value. -/
def complement8 (t : Nat) : Nat := 255 - t % 256

/-! ## Frame builders (the 12-byte USBTMC bulk headers) -/

/-- Header written by usbtmc_write (DEV_DEP_MSG_OUT, usbtmc.c lines 903-915). -/
def devDepMsgOutHeader (tag this_part eomByte : Nat) : List Nat :=
  [1, tag % 256, complement8 tag, 0,
   this_part % 256, this_part / 256 % 256, this_part / 65536 % 256,
   this_part / 16777216 % 256,
   eomByte, 0, 0, 0]

/-- Frame written by send_request_dev_dep_msg_in (usbtmc.c lines 670-682). -/
def reqDevDepMsgInFrame (tag transfer_size : Nat) (termEnabled : Bool)
    (termChar : Nat) : List Nat :=
  [2, tag % 256, complement8 tag, 0,
   transfer_size % 256, transfer_size / 256 % 256, transfer_size / 65536 % 256,
   transfer_size / 16777216 % 256,
   if termEnabled then 2 else 0, termChar % 256, 0, 0]

/-- Frame written by usbtmc488_ioctl_trigger (usbtmc.c lines 616-622);
the buffer is kzalloc'ed so all other bytes are zero. -/
def triggerFrame (tag : Nat) : List Nat :=
  [128, tag % 256, complement8 tag, 0, 0, 0, 0, 0, 0, 0, 0, 0]

/-- n_characters decoded from a DEV_DEP_MSG_IN reply header
(usbtmc.c lines 796-799). -/
def readNChars (bs : List Nat) : Nat :=
  bs.getD 4 0 + bs.getD 5 0 * 256 + bs.getD 6 0 * 65536 + bs.getD 7 0 * 16777216

/-! ## Probe, open, disconnect (lifecycle) -/

/-- Device state established by usbtmc_probe (usbtmc.c lines 1667-1691):
kzalloc zeroes the record, then zombie=0, bTag=1, TermCharEnabled=0,
TermChar='\n' (10), timeout=usb_timeout (default 5000), eom_val=1,
iin_bTag=2.  Endpoint discovery and GET_CAPABILITIES fill the remaining
fields afterwards. -/
def usbtmc_probe_init : DeviceData :=
  { bulk_in := 0, bulk_out := 0, bTag := 1, bTag_last_write := 0,
    bTag_last_read := 0, bNotify1 := 0, bNotify2 := 0, ifnum := 0,
    iin_bTag := 2, iin_data_valid := false, iin_ep_present := false,
    usb488_caps := 0, timeout := USBTMC_TIMEOUT, TermChar := 10,
    TermCharEnabled := false, auto_abort := false, eom_val := true,
    zombie := false, capabilities := ⟨0, 0, 0, 0⟩ }

/-- File handle created by usbtmc_open (usbtmc.c lines 180-198): kzalloc'ed,
then the TermChar/TermCharEnabled/auto_abort defaults are copied from the
device. -/
def usbtmc_open_file (dev : DeviceData) : FileData :=
  { srq_byte := 0, srq_asserted := false, TermChar := dev.TermChar,
    TermCharEnabled := dev.TermCharEnabled, auto_abort := dev.auto_abort }

/-- usbtmc_disconnect (usbtmc.c line 1806): sets the zombie flag under the
IO mutex.  Nothing in the driver ever clears it again. -/
def usbtmc_disconnect (dev : DeviceData) : DeviceData :=
  { dev with zombie := true }

/-- get_capabilities (usbtmc.c lines 1114-1154): parse the 24-byte
GET_CAPABILITIES reply and build the coalesced usb488_caps byte. -/
def get_capabilities (dev : DeviceData) (ctrl : Int × List Nat) :
    Int × DeviceData × List Ev :=
  let (rv, bytes) := ctrl
  let tr := [Ev.controlMsg 7 0 0 0x18]
  if rv < 0 then (rv, dev, tr)
  else if bytes.getD 0 0 ≠ USBTMC_STATUS_SUCCESS then (-EPERM, dev, tr)
  else
    (0,
     { dev with
        capabilities :=
          ⟨bytes.getD 4 0, bytes.getD 5 0, bytes.getD 14 0, bytes.getD 15 0⟩,
        usb488_caps :=
          (bytes.getD 14 0 % 8) + (bytes.getD 15 0 % 16) * 16 },
     tr)

/-! ## Interrupt-in demultiplexer (usbtmc_interrupt, success case) -/

/-- usbtmc_interrupt for a successfully completed URB (usbtmc.c lines
1576-1613), given the two notification bytes of iin_buffer.  A first byte
above 0x81 publishes a READ_STATUS_BYTE response; 0x81 is an SRQ
notification fanned out to every open handle; anything else is ignored
with a warning. -/
def usbtmc_interrupt (dev : DeviceData) (files : List FileData)
    (b0 b1 : Nat) : DeviceData × List FileData :=
  if 0x81 < b0 then
    ({ dev with bNotify1 := b0, bNotify2 := b1, iin_data_valid := true }, files)
  else if b0 = 0x81 then
    (dev, files.map fun f => { f with srq_byte := b1, srq_asserted := true })
  else
    (dev, files)

/-! ## READ_STATUS_BYTE (usbtmc488_ioctl_read_stb) -/

/-- Outcome of wait_event_interruptible_timeout in read_stb.  `ok n1 n2`
folds in the concurrent interrupt callback that published the notification
bytes `n1`, `n2` (usbtmc_interrupt, first branch) before the waiter was
woken. -/
inductive WaitRes where
  | intr (rv : Int)
  | timeout
  | ok (n1 n2 : Nat)
deriving Repr, DecidableEq

structure StbResult where
  rv : Int
  stb : Option Nat
  dev : DeviceData
  fd : FileData
  trace : List Ev
deriving Repr, DecidableEq

/-- usbtmc488_ioctl_read_stb (usbtmc.c lines 452-547).  If the handle has a
pending SRQ status byte, it is consumed and returned with no transport
traffic.  Otherwise the READ_STATUS_BYTE control request is issued tagged
with iin_bTag; the status byte comes from the interrupt notification if an
interrupt-in endpoint exists, else from byte 2 of the control reply.  All
paths past the control request advance iin_bTag at the exit label.  The
interrupt-tag mismatch check (lines 521-525) only logs a warning.
User-memory copies are assumed to succeed. -/
def usbtmc488_ioctl_read_stb (dev : DeviceData) (fd : FileData)
    (ctrl : Int × List Nat) (w : WaitRes) : StbResult :=
  if fd.srq_asserted then
    { rv := 0, stb := some fd.srq_byte, dev := dev,
      fd := { fd with srq_asserted := false }, trace := [] }
  else
    let dev0 := { dev with iin_data_valid := false }
    let tr := [Ev.controlMsg USBTMC488_REQUEST_READ_STATUS_BYTE
                 dev.iin_bTag dev.ifnum 3]
    let (rv0, bytes) := ctrl
    let core : Int × Option Nat × DeviceData :=
      if rv0 < 0 then (rv0, none, dev0)
      else if bytes.getD 0 0 ≠ USBTMC_STATUS_SUCCESS then (- EIO, none, dev0)
      else if dev0.iin_ep_present then
        match w with
        | .intr r => (r, none, dev0)
        | .timeout => (-ETIMEDOUT, none, dev0)
        | .ok n1 n2 =>
          (0, some (n2 % 256),
           { dev0 with bNotify1 := n1 % 256, bNotify2 := n2 % 256,
                       iin_data_valid := true })
      else (0, some (bytes.getD 2 0), dev0)
    { rv := core.1, stb := core.2.1,
      dev := { core.2.2 with iin_bTag := nextIinTag core.2.2.iin_bTag },
      fd := fd, trace := tr }

/-! ## USB488 simple requests (usbtmc488_ioctl_simple) -/

/-- usbtmc488_ioctl_simple (usbtmc.c lines 549-602): REN_CONTROL,
GOTO_LOCAL and LOCAL_LOCKOUT.  Refused with EINVAL, before any transport
traffic, unless the coalesced usb488_caps has the simple bit. -/
def usbtmc488_ioctl_simple (dev : DeviceData) (val : Nat) (cmd : Nat)
    (ctrl : Int × List Nat) : Int × List Ev :=
  if dev.usb488_caps &&& USBTMC488_CAPABILITY_SIMPLE = 0 then
    (-EINVAL, [])
  else
    let wValue := if cmd = USBTMC488_REQUEST_REN_CONTROL then
                    (if val ≠ 0 then 1 else 0) else 0
    let (rv, bytes) := ctrl
    let tr := [Ev.controlMsg cmd wValue dev.ifnum 1]
    if rv < 0 then (rv, tr)
    else if rv ≠ 1 then (- EIO, tr)
    else if bytes.getD 0 0 ≠ USBTMC_STATUS_SUCCESS then (- EIO, tr)
    else (0, tr)

/-! ## TRIGGER (usbtmc488_ioctl_trigger) -/

/-- usbtmc488_ioctl_trigger (usbtmc.c lines 610-645): send the TRIGGER
bulk-out message, then store bTag_last_write and advance bTag (skipping 0)
regardless of the transfer's outcome. -/
def usbtmc488_ioctl_trigger (dev : DeviceData) (resp : Int × Nat) :
    Int × DeviceData × List Ev :=
  let frame := triggerFrame dev.bTag
  let dev1 := { dev with bTag_last_write := dev.bTag, bTag := nextTag dev.bTag }
  (resp.1, dev1, [Ev.bulkOutSend frame])

/-! ## Read engine (send_request_dev_dep_msg_in + usbtmc_read) -/

structure ReadResult where
  rv : Int
  delivered : List Nat
  dev : DeviceData
  trace : List Ev
deriving Repr, DecidableEq

/-- The bulk-in drain loop of usbtmc_read (usbtmc.c lines 750-853).  Each
loop iteration consumes one scripted bulk-in response `(rv, bytes)`; an
exhausted script behaves as a transport timeout.  The header of the first
packet is validated; on any fault the code jumps to exit with `retval`
still holding the non-negative usb_bulk_msg result, running ABORT_BULK_IN
first when auto_abort is set.  `count` is the unchanged `this_part`
snapshot used by the n_characters check. -/
def usbtmc_read_loop (dev : DeviceData) (count rem done : Nat) :
    List (Int × List Nat) → ReadResult
  | [] =>
    if rem = 0 then ⟨(done : Int), [], dev, []⟩
    else
      let dev1 := { dev with bTag_last_read := dev.bTag }
      ⟨-ETIMEDOUT, [], dev1,
       Ev.bulkInRecv :: (if dev1.auto_abort then [Ev.abortBulkIn] else [])⟩
  | (rv, bytes) :: rest =>
    if rem = 0 then ⟨(done : Int), [], dev, []⟩
    else
      let actual := bytes.length
      let dev1 := { dev with bTag_last_read := dev.bTag }
      let abortTr : List Ev := if dev1.auto_abort then [Ev.abortBulkIn] else []
      if rv < 0 then ⟨rv, [], dev1, Ev.bulkInRecv :: abortTr⟩
      else if done = 0 then
        if actual < USBTMC_HEADER_SIZE then
          ⟨rv, [], dev1, Ev.bulkInRecv :: abortTr⟩
        else if bytes.getD 0 0 ≠ 2 then
          ⟨rv, [], dev1, Ev.bulkInRecv :: abortTr⟩
        else if bytes.getD 1 0 ≠ dev1.bTag_last_write then
          ⟨rv, [], dev1, Ev.bulkInRecv :: abortTr⟩
        else if count < readNChars bytes then
          ⟨rv, [], dev1, Ev.bulkInRecv :: abortTr⟩
        else
          let n_characters := readNChars bytes
          let actual1 := actual - USBTMC_HEADER_SIZE
          let rem1 := if n_characters < rem then n_characters else rem
          let actual2 := if rem1 < actual1 then rem1 else actual1
          let rem2 := rem1 - actual2
          let rem3 := if bytes.getD 8 0 % 2 = 1 ∧ n_characters ≤ actual2
                      then 0 else rem2
          let chunk := (bytes.drop USBTMC_HEADER_SIZE).take actual2
          let r := usbtmc_read_loop dev1 count rem3 (done + actual2) rest
          ⟨r.rv, chunk ++ r.delivered, r.dev, Ev.bulkInRecv :: r.trace⟩
      else
        let actual2 := if rem < actual then rem else actual
        let rem2 := rem - actual2
        let chunk := bytes.take actual2
        let r := usbtmc_read_loop dev1 count rem2 (done + actual2) rest
        ⟨r.rv, chunk ++ r.delivered, r.dev, Ev.bulkInRecv :: r.trace⟩

/-- usbtmc_read (usbtmc.c lines 706-863).  Refuse when zombie; send
REQUEST_DEV_DEP_MSG_IN (which stores bTag_last_write and advances bTag
whatever the outcome, lines 690-696); on a failed send run ABORT_BULK_OUT
if auto_abort; otherwise drain bulk-in.  `reqRv` is the scripted result of
the request transfer and `script` the scripted bulk-in responses. -/
def usbtmc_read (dev : DeviceData) (fd : FileData) (count : Nat)
    (reqRv : Int) (script : List (Int × List Nat)) : ReadResult :=
  if dev.zombie then ⟨-ENODEV, [], dev, []⟩
  else
    let frame := reqDevDepMsgInFrame dev.bTag count fd.TermCharEnabled fd.TermChar
    let dev1 := { dev with bTag_last_write := dev.bTag, bTag := nextTag dev.bTag }
    if reqRv < 0 then
      ⟨reqRv, [], dev1,
       Ev.bulkOutSend frame ::
         (if dev1.auto_abort then [Ev.abortBulkOut] else [])⟩
    else
      let r := usbtmc_read_loop dev1 count count 0 script
      ⟨r.rv, r.delivered, r.dev, Ev.bulkOutSend frame :: r.trace⟩

/-! ## Write engine (usbtmc_write) -/

structure SendRes where
  rv : Int
  sent : List Nat
  rest : List (Int × Nat)
  trace : List Ev
deriving Repr, DecidableEq

/-- The inner do/while of usbtmc_write (usbtmc.c lines 925-934).  Each
usb_bulk_msg submits the FIRST n_bytes bytes of the chunk buffer; on a
partial transfer the loop subtracts `actual` from n_bytes and submits the
buffer start again.  `sent` collects the bytes actually accepted by the
endpoint, `trace` each submission.  An exhausted script behaves as a
transport timeout. -/
def usbtmc_write_sendLoop (buf : List Nat) (n_bytes : Nat) :
    List (Int × Nat) → SendRes
  | [] => ⟨-ETIMEDOUT, [], [], [Ev.bulkOutSend (buf.take n_bytes)]⟩
  | (rv, actual) :: rest =>
    let submitted := buf.take n_bytes
    if rv ≠ 0 then ⟨rv, submitted.take actual, rest, [Ev.bulkOutSend submitted]⟩
    else if n_bytes - actual = 0 then
      ⟨0, submitted.take actual, rest, [Ev.bulkOutSend submitted]⟩
    else
      let r := usbtmc_write_sendLoop buf (n_bytes - actual) rest
      ⟨r.rv, submitted.take actual ++ r.sent, r.rest,
       Ev.bulkOutSend submitted :: r.trace⟩

structure WriteResult where
  rv : Int
  sent : List Nat
  dev : DeviceData
  frames : List (List Nat)
  trace : List Ev
deriving Repr, DecidableEq

/-- roundup(x, 4) as used for the padded chunk length (usbtmc.c line 922). -/
def roundup4 (x : Nat) : Nat := (x + 3) / 4 * 4

/-- The chunking loop of usbtmc_write (usbtmc.c lines 894-952).  Each
iteration frames min(remaining, io_buffer_size-12) payload bytes (the last
chunk carries eom_val in byte 8), zero-pads to a 4-byte multiple, runs the
inner send loop, then stores bTag_last_write and advances bTag whatever
the outcome; a negative send result runs ABORT_BULK_OUT if auto_abort and
returns it, otherwise the loop continues until the data is consumed and
`count` is returned.  `frames` collects the framed chunks.  `fuel` is an
upper bound on the number of chunks (any value at least dat.length makes
it irrelevant, since every chunk consumes at least one payload byte). -/
def usbtmc_write_loop : Nat → DeviceData → Nat → List Nat →
    List (Int × Nat) → WriteResult
  | 0, dev, count, _, _ => ⟨(count : Int), [], dev, [], []⟩
  | _ + 1, dev, count, [], _ => ⟨(count : Int), [], dev, [], []⟩
  | fuel + 1, dev, count, d :: ds, script =>
    let dat := d :: ds
    let remaining := dat.length
    let hp := io_buffer_size - USBTMC_HEADER_SIZE
    let this_part := if hp < remaining then hp else remaining
    let eomByte : Nat := if hp < remaining then 0
                         else (if dev.eom_val then 1 else 0)
    let n_bytes := roundup4 (USBTMC_HEADER_SIZE + this_part)
    let frame := devDepMsgOutHeader dev.bTag this_part eomByte
                 ++ dat.take this_part
                 ++ List.replicate (n_bytes - (USBTMC_HEADER_SIZE + this_part)) 0
    let s := usbtmc_write_sendLoop frame n_bytes script
    let dev1 := { dev with bTag_last_write := dev.bTag, bTag := nextTag dev.bTag }
    if s.rv < 0 then
      ⟨s.rv, s.sent, dev1, [frame],
       s.trace ++ (if dev1.auto_abort then [Ev.abortBulkOut] else [])⟩
    else
      let r := usbtmc_write_loop fuel dev1 count (dat.drop this_part) s.rest
      ⟨r.rv, s.sent ++ r.sent, r.dev, frame :: r.frames, s.trace ++ r.trace⟩

/-- usbtmc_write (usbtmc.c lines 865-959).  Refuse when zombie, else run
the chunking loop over the user data; on success the full `count` is
returned (no short writes). -/
def usbtmc_write (dev : DeviceData) (dat : List Nat)
    (script : List (Int × Nat)) : WriteResult :=
  if dev.zombie then ⟨-ENODEV, [], dev, [], []⟩
  else usbtmc_write_loop dat.length dev dat.length dat script

/-! ## ioctl dispatcher (usbtmc_ioctl) and its helpers -/

/-- usbtmc_ioctl_clear_out_halt / clear_in_halt (usbtmc.c lines 1084-1112). -/
def usbtmc_ioctl_clear_halt (ep : Nat) (rv : Int) : Int × List Ev :=
  (if rv < 0 then rv else 0, [Ev.clearHalt ep])

/-- usbtmc_ioctl_indicator_pulse (usbtmc.c lines 1253-1288). -/
def usbtmc_ioctl_indicator_pulse (dev : DeviceData) (ctrl : Int × List Nat) :
    Int × List Ev :=
  let (rv, bytes) := ctrl
  let tr := [Ev.controlMsg USBTMC_REQUEST_INDICATOR_PULSE 0 0 1]
  if rv < 0 then (rv, tr)
  else if bytes.getD 0 0 ≠ USBTMC_STATUS_SUCCESS then (-EPERM, tr)
  else (0, tr)

/-- usbtmc_ioctl_request (usbtmc.c lines 1290-1342): generic control
request pass-through; an IN reply longer than wLength is clamped. -/
def usbtmc_ioctl_request (bRequestType bRequest wValue wIndex wLength : Nat)
    (ctrlRv : Int) : Int × List Ev :=
  let tr := [Ev.controlMsg bRequest wValue wIndex wLength]
  if ctrlRv < 0 then (ctrlRv, tr)
  else if 128 ≤ bRequestType % 256 then
    (if (wLength : Int) < ctrlRv then (wLength : Int) else ctrlRv, tr)
  else (ctrlRv, tr)

/-- usbtmc_ioctl_set_timeout (usbtmc.c lines 1363-1377). -/
def usbtmc_ioctl_set_timeout (dev : DeviceData) (v : Nat) : Int × DeviceData :=
  if v < USBTMC_MIN_TIMEOUT then (-EINVAL, dev)
  else (0, { dev with timeout := v })

/-- usbtmc_ioctl_eom_enable (usbtmc.c lines 1382-1396). -/
def usbtmc_ioctl_eom_enable (dev : DeviceData) (v : Nat) : Int × DeviceData :=
  if 1 < v then (-EINVAL, dev)
  else (0, { dev with eom_val := v = 1 })

/-- usbtmc_ioctl_config_termc (usbtmc.c lines 1401-1418). -/
def usbtmc_ioctl_config_termc (dev : DeviceData) (ch en : Nat) :
    Int × DeviceData :=
  if 1 < en ∨ (en ≠ 0 ∧ dev.capabilities.device_capabilities % 2 = 0) then
    (-EINVAL, dev)
  else (0, { dev with TermChar := ch % 256, TermCharEnabled := en ≠ 0 })

/-- The ioctl command set (usbtmc.c lines 1432-1508), with each command
carrying the scripted transport responses its handler consumes. -/
inductive Cmd where
  | clearOutHalt (rv : Int)
  | clearInHalt (rv : Int)
  | indicatorPulse (ctrl : Int × List Nat)
  | clear (rv : Int)
  | abortBulkOut (rv : Int)
  | abortBulkIn (rv : Int)
  | ctrlRequest (bRequestType bRequest wValue wIndex wLength : Nat) (ctrlRv : Int)
  | getTimeout
  | setTimeout (v : Nat)
  | eomEnable (v : Nat)
  | configTermChar (ch en : Nat)
  | getCaps
  | readStb (ctrl : Int × List Nat) (w : WaitRes)
  | renControl (val : Nat) (ctrl : Int × List Nat)
  | gotoLocal (ctrl : Int × List Nat)
  | localLockout (ctrl : Int × List Nat)
  | trigger (resp : Int × Nat)
  | unknown
deriving Repr

/-- usbtmc_ioctl (usbtmc.c lines 1420-1513): under the IO mutex, refuse
with ENODEV when zombie before dispatching; unknown commands yield
EBADRQC.  The CLEAR and ABORT state machines appear as single events. -/
def usbtmc_ioctl (dev : DeviceData) (fd : FileData) (cmd : Cmd) :
    Int × DeviceData × FileData × List Ev :=
  if dev.zombie then (-ENODEV, dev, fd, [])
  else
    match cmd with
    | .clearOutHalt rv =>
      let (r, tr) := usbtmc_ioctl_clear_halt dev.bulk_out rv
      (r, dev, fd, tr)
    | .clearInHalt rv =>
      let (r, tr) := usbtmc_ioctl_clear_halt dev.bulk_in rv
      (r, dev, fd, tr)
    | .indicatorPulse ctrl =>
      let (r, tr) := usbtmc_ioctl_indicator_pulse dev ctrl
      (r, dev, fd, tr)
    | .clear rv => (rv, dev, fd, [Ev.clearDevice])
    | .abortBulkOut rv => (rv, dev, fd, [Ev.abortBulkOut])
    | .abortBulkIn rv => (rv, dev, fd, [Ev.abortBulkIn])
    | .ctrlRequest rt br wv wi wl c =>
      let (r, tr) := usbtmc_ioctl_request rt br wv wi wl c
      (r, dev, fd, tr)
    | .getTimeout => (0, dev, fd, [])
    | .setTimeout v =>
      let (r, d) := usbtmc_ioctl_set_timeout dev v
      (r, d, fd, [])
    | .eomEnable v =>
      let (r, d) := usbtmc_ioctl_eom_enable dev v
      (r, d, fd, [])
    | .configTermChar ch en =>
      let (r, d) := usbtmc_ioctl_config_termc dev ch en
      (r, d, fd, [])
    | .getCaps => (0, dev, fd, [])
    | .readStb ctrl w =>
      let r := usbtmc488_ioctl_read_stb dev fd ctrl w
      (r.rv, r.dev, r.fd, r.trace)
    | .renControl v ctrl =>
      let (r, tr) := usbtmc488_ioctl_simple dev v USBTMC488_REQUEST_REN_CONTROL ctrl
      (r, dev, fd, tr)
    | .gotoLocal ctrl =>
      let (r, tr) := usbtmc488_ioctl_simple dev 0 USBTMC488_REQUEST_GOTO_LOCAL ctrl
      (r, dev, fd, tr)
    | .localLockout ctrl =>
      let (r, tr) := usbtmc488_ioctl_simple dev 0 USBTMC488_REQUEST_LOCAL_LOCKOUT ctrl
      (r, dev, fd, tr)
    | .trigger resp =>
      let (r, d, tr) := usbtmc488_ioctl_trigger dev resp
      (r, d, fd, tr)
    | .unknown => (-EBADRQC, dev, fd, [])

end Usbtmc

/-! ## Derived notions used by the verification -/

namespace Usbtmc

/-- The bulk-header well-formedness of spec section 8: a non-zero tag at
offset 1 and its u8 one's complement at offset 2. -/
def FrameTagOk (bs : List Nat) : Prop :=
  bs.getD 1 0 ≠ 0 ∧ bs.getD 2 0 = 255 - bs.getD 1 0

instance (bs : List Nat) : Decidable (FrameTagOk bs) := by
  unfold FrameTagOk; infer_instance

/-- Tag byte (offset 1) of the last frame of a list of framed chunks. -/
def lastTag : List (List Nat) → Option Nat
  | [] => none
  | [f] => some (f.getD 1 0)
  | _ :: f :: fs => lastTag (f :: fs)

/-- The faults the first bulk-in reply of usbtmc_read can raise: a transport
error, a short first packet, a wrong MsgID, a wrong bTag, or an
n_characters larger than the request (usbtmc.c lines 764-806). -/
def FirstChunkFault (e : Int) (bs : List Nat) (count tag : Nat) : Prop :=
  e < 0 ∨ bs.length < USBTMC_HEADER_SIZE ∨ bs.getD 0 0 ≠ 2 ∨
    bs.getD 1 0 ≠ tag ∨ count < readNChars bs

instance (e : Int) (bs : List Nat) (count tag : Nat) :
    Decidable (FirstChunkFault e bs count tag) := by
  unfold FirstChunkFault; infer_instance

/-- Sample device: a freshly probed device whose bTag has advanced to 5. -/
def devA : DeviceData := { usbtmc_probe_init with bTag := 5 }

/-- Sample device with auto_abort enabled. -/
def devAbort : DeviceData := { devA with auto_abort := true }

/-- Sample file handle opened on devA. -/
def fdA : FileData := usbtmc_open_file devA

/-! ## Tag arithmetic lemmas -/

theorem nextTag_pos (t : Nat) : 1 ≤ nextTag t := by
  simp only [nextTag]; split <;> omega

theorem nextTag_le (t : Nat) : nextTag t ≤ 255 := by
  simp only [nextTag]
  split
  · omega
  · exact Nat.le_of_lt_succ (Nat.mod_lt _ (by omega))

theorem nextIinTag_bounds (t : Nat) (h1 : 2 ≤ t) (h2 : t ≤ 127) :
    2 ≤ nextIinTag t ∧ nextIinTag t ≤ 127 := by
  simp only [nextIinTag]
  have h : (t + 1) % 256 = t + 1 := Nat.mod_eq_of_lt (by omega)
  split <;> omega

/-! ## Frame header lemmas -/

theorem frameTagOk_devDepMsgOut (t p e : Nat) (xs : List Nat)
    (h1 : 1 ≤ t) (h2 : t ≤ 255) :
    FrameTagOk (devDepMsgOutHeader t p e ++ xs) := by
  have ht : t % 256 = t := Nat.mod_eq_of_lt (by omega)
  simp [FrameTagOk, devDepMsgOutHeader, complement8, ht]
  omega

theorem frameTagOk_req (t ts tc : Nat) (te : Bool)
    (h1 : 1 ≤ t) (h2 : t ≤ 255) :
    FrameTagOk (reqDevDepMsgInFrame t ts te tc) := by
  have ht : t % 256 = t := Nat.mod_eq_of_lt (by omega)
  simp [FrameTagOk, reqDevDepMsgInFrame, complement8, ht]
  omega

theorem frameTagOk_trigger (t : Nat) (h1 : 1 ≤ t) (h2 : t ≤ 255) :
    FrameTagOk (triggerFrame t) := by
  have ht : t % 256 = t := Nat.mod_eq_of_lt (by omega)
  simp [FrameTagOk, triggerFrame, complement8, ht]
  omega

/-! ## List helper lemmas -/

theorem getD_map_of_lt {α β : Type} (g : α → β) :
    ∀ (l : List α) (i : Nat), i < l.length → ∀ (d : β) (d' : α),
      (l.map g).getD i d = g (l.getD i d')
  | [], i, h, _, _ => by simp at h
  | a :: l, 0, _, _, _ => by simp [List.getD]
  | a :: l, i + 1, h, d, d' => by
    simp only [List.map_cons, List.getD_cons_succ]
    exact getD_map_of_lt g l i (by simpa using h) d d'

theorem getD_set_ne {α : Type} :
    ∀ (l : List α) (i j : Nat), i ≠ j → ∀ (a d : α),
      (l.set i a).getD j d = l.getD j d
  | [], _, _, _, _, _ => by simp
  | x :: l, 0, 0, h, _, _ => absurd rfl h
  | x :: l, 0, j + 1, _, a, d => by simp [List.getD]
  | x :: l, i + 1, 0, _, a, d => by simp [List.getD]
  | x :: l, i + 1, j + 1, h, a, d => by
    simp only [List.set_cons_succ, List.getD_cons_succ]
    exact getD_set_ne l i j (by omega) a d

end Usbtmc

namespace Usbtmc

/-! ## Read-loop lemmas -/

theorem read_loop_zero (dev : DeviceData) (count done : Nat)
    (script : List (Int × List Nat)) :
    usbtmc_read_loop dev count 0 done script = ⟨(done : Int), [], dev, []⟩ := by
  cases script with
  | nil => simp [usbtmc_read_loop]
  | cons hd rest => obtain ⟨rv, bytes⟩ := hd; simp [usbtmc_read_loop]

theorem read_loop_bTag (script : List (Int × List Nat)) :
    ∀ (dev : DeviceData) (count rem done : Nat),
      (usbtmc_read_loop dev count rem done script).dev.bTag = dev.bTag := by
  induction script with
  | nil =>
    intro dev count rem done
    by_cases h : rem = 0 <;> simp [usbtmc_read_loop, h]
  | cons hd rest ih =>
    intro dev count rem done
    obtain ⟨rv, bytes⟩ := hd
    by_cases h : rem = 0
    · simp [usbtmc_read_loop, h]
    · simp only [usbtmc_read_loop, h, if_false]
      split <;> try rfl
      split <;> try rfl
      · split <;> try rfl
        split <;> try rfl
        split <;> try rfl
        split <;> try rfl
        simp [ih]
      · simp [ih]

theorem read_loop_last_read (script : List (Int × List Nat)) :
    ∀ (dev : DeviceData) (count rem done : Nat),
      (usbtmc_read_loop dev count rem done script).dev.bTag_last_read
        = (if rem = 0 then dev.bTag_last_read else dev.bTag) := by
  induction script with
  | nil =>
    intro dev count rem done
    by_cases h : rem = 0 <;> simp [usbtmc_read_loop, h]
  | cons hd rest ih =>
    intro dev count rem done
    obtain ⟨rv, bytes⟩ := hd
    by_cases h : rem = 0
    · simp [usbtmc_read_loop, h]
    · simp only [usbtmc_read_loop, h, if_false]
      split <;> try simp
      split <;> try simp
      · split <;> try simp
        split <;> try simp
        split <;> try simp
        split <;> try simp
        rw [ih]
        split <;> simp
      · rw [ih]
        split <;> simp

theorem read_loop_zombie (script : List (Int × List Nat)) :
    ∀ (dev : DeviceData) (count rem done : Nat),
      (usbtmc_read_loop dev count rem done script).dev.zombie = dev.zombie := by
  induction script with
  | nil =>
    intro dev count rem done
    by_cases h : rem = 0 <;> simp [usbtmc_read_loop, h]
  | cons hd rest ih =>
    intro dev count rem done
    obtain ⟨rv, bytes⟩ := hd
    by_cases h : rem = 0
    · simp [usbtmc_read_loop, h]
    · simp only [usbtmc_read_loop, h, if_false]
      split <;> try rfl
      split <;> try rfl
      · split <;> try rfl
        split <;> try rfl
        split <;> try rfl
        split <;> try rfl
        simp [ih]
      · simp [ih]

theorem read_loop_abort (script : List (Int × List Nat)) :
    ∀ (dev : DeviceData) (count rem done : Nat),
      dev.auto_abort = true →
      (usbtmc_read_loop dev count rem done script).rv < 0 →
      Ev.abortBulkIn ∈ (usbtmc_read_loop dev count rem done script).trace := by
  induction script with
  | nil =>
    intro dev count rem done ha
    by_cases h : rem = 0
    · subst h
      rw [read_loop_zero]
      intro hrv
      exact absurd hrv (show ¬((done : Int) < 0) by omega)
    · intro _
      simp [usbtmc_read_loop, h, ha]
  | cons hd rest ih =>
    intro dev count rem done ha
    obtain ⟨rv, bytes⟩ := hd
    by_cases h : rem = 0
    · subst h
      rw [read_loop_zero]
      intro hrv
      exact absurd hrv (show ¬((done : Int) < 0) by omega)
    · simp only [usbtmc_read_loop, if_neg h]
      split
      · intro _; simp [ha]
      · split
        · split
          · intro _; simp [ha]
          · split
            · intro _; simp [ha]
            · split
              · intro _; simp [ha]
              · split
                · intro _; simp [ha]
                · intro hrv
                  exact List.mem_cons_of_mem _
                    (ih _ _ _ _ (by simpa using ha) hrv)
        · intro hrv
          exact List.mem_cons_of_mem _ (ih _ _ _ _ (by simpa using ha) hrv)

theorem read_loop_ev (script : List (Int × List Nat)) :
    ∀ (dev : DeviceData) (count rem done : Nat) (ev : Ev),
      ev ∈ (usbtmc_read_loop dev count rem done script).trace →
      ev = Ev.bulkInRecv ∨ ev = Ev.abortBulkIn := by
  induction script with
  | nil =>
    intro dev count rem done ev
    by_cases h : rem = 0
    · subst h
      rw [read_loop_zero]
      intro hm
      simp at hm
    · intro hm
      simp only [usbtmc_read_loop, if_neg h] at hm
      rcases List.mem_cons.mp hm with h' | h'
      · exact Or.inl h'
      · split at h' <;> simp_all
  | cons hd rest ih =>
    intro dev count rem done ev
    obtain ⟨rv, bytes⟩ := hd
    by_cases h : rem = 0
    · subst h
      rw [read_loop_zero]
      intro hm
      simp at hm
    · simp only [usbtmc_read_loop, if_neg h]
      split
      · intro hm
        rcases List.mem_cons.mp hm with h' | h'
        · exact Or.inl h'
        · split at h' <;> simp_all
      · split
        · split
          · intro hm
            rcases List.mem_cons.mp hm with h' | h'
            · exact Or.inl h'
            · split at h' <;> simp_all
          · split
            · intro hm
              rcases List.mem_cons.mp hm with h' | h'
              · exact Or.inl h'
              · split at h' <;> simp_all
            · split
              · intro hm
                rcases List.mem_cons.mp hm with h' | h'
                · exact Or.inl h'
                · split at h' <;> simp_all
              · split
                · intro hm
                  rcases List.mem_cons.mp hm with h' | h'
                  · exact Or.inl h'
                  · split at h' <;> simp_all
                · intro hm
                  rcases List.mem_cons.mp hm with h' | h'
                  · exact Or.inl h'
                  · exact ih _ _ _ _ _ h'
        · intro hm
          rcases List.mem_cons.mp hm with h' | h'
          · exact Or.inl h'
          · exact ih _ _ _ _ _ h'

end Usbtmc

namespace Usbtmc

/-! ## Write-loop lemmas -/

theorem write_loop_nil (fuel : Nat) (dev : DeviceData) (count : Nat)
    (script : List (Int × Nat)) :
    usbtmc_write_loop fuel dev count [] script
      = ⟨(count : Int), [], dev, [], []⟩ := by
  cases fuel <;> simp [usbtmc_write_loop]

theorem write_loop_zombie : ∀ (fuel : Nat) (dev : DeviceData) (count : Nat)
    (dat : List Nat) (script : List (Int × Nat)),
    (usbtmc_write_loop fuel dev count dat script).dev.zombie = dev.zombie := by
  intro fuel
  induction fuel with
  | zero => intro dev count dat script; simp [usbtmc_write_loop]
  | succ n ih =>
    intro dev count dat script
    cases dat with
    | nil => simp [usbtmc_write_loop]
    | cons d ds =>
      simp only [usbtmc_write_loop]
      repeat' split
      all_goals first
        | rfl
        | (dsimp only; rw [ih])

theorem header_getD_one (t p e : Nat) (xs : List Nat) (h2 : t ≤ 255) :
    (devDepMsgOutHeader t p e ++ xs).getD 1 0 = t := by
  simp [devDepMsgOutHeader, Nat.mod_eq_of_lt (show t < 256 by omega)]

theorem lastTag_cons_of_ne (f : List Nat) (fs : List (List Nat)) (h : fs ≠ []) :
    lastTag (f :: fs) = lastTag fs := by
  cases fs with
  | nil => exact absurd rfl h
  | cons g gs => rfl

theorem write_loop_frames : ∀ (fuel : Nat) (dev : DeviceData) (count : Nat)
    (dat : List Nat) (script : List (Int × Nat)) (f : List Nat),
    1 ≤ dev.bTag → dev.bTag ≤ 255 →
    f ∈ (usbtmc_write_loop fuel dev count dat script).frames →
    FrameTagOk f := by
  intro fuel
  induction fuel with
  | zero =>
    intro dev count dat script f _ _ hm
    simp [usbtmc_write_loop] at hm
  | succ n ih =>
    intro dev count dat script f h1 h2
    cases dat with
    | nil => intro hm; simp [usbtmc_write_loop] at hm
    | cons d ds =>
      simp only [usbtmc_write_loop]
      repeat' split
      all_goals intro hm
      all_goals dsimp only at hm
      all_goals rcases List.mem_cons.mp hm with h' | h'
      all_goals first
        | (subst h'; exact frameTagOk_devDepMsgOut _ _ _ _ h1 h2)
        | (exact absurd h' (List.not_mem_nil _))
        | (exact ih _ _ _ _ _ (by simpa using nextTag_pos dev.bTag)
            (by simpa using nextTag_le dev.bTag) h')

theorem write_loop_lastTag : ∀ (fuel : Nat) (dev : DeviceData) (count : Nat)
    (dat : List Nat) (script : List (Int × Nat)),
    dat ≠ [] → dat.length ≤ fuel → dev.bTag ≤ 255 →
    lastTag (usbtmc_write_loop fuel dev count dat script).frames
        = some (usbtmc_write_loop fuel dev count dat script).dev.bTag_last_write
      ∧ (usbtmc_write_loop fuel dev count dat script).frames ≠ [] := by
  intro fuel
  induction fuel with
  | zero =>
    intro dev count dat script hne hlen _
    cases dat with
    | nil => exact absurd rfl hne
    | cons d ds => simp at hlen
  | succ n ih =>
    intro dev count dat script hne hlen hbt
    cases dat with
    | nil => exact absurd rfl hne
    | cons d ds =>
      simp only [usbtmc_write_loop]
      split
      · rename_i hlt
        split
        · dsimp only
          exact ⟨by simp [lastTag, devDepMsgOutHeader, complement8,
              Nat.mod_eq_of_lt (show dev.bTag < 256 by omega)], by simp⟩
        · dsimp only
          by_cases hdrop :
              (d :: ds).drop (io_buffer_size - USBTMC_HEADER_SIZE) = []
          · rw [hdrop, write_loop_nil]
            exact ⟨by simp [lastTag, devDepMsgOutHeader, complement8,
              Nat.mod_eq_of_lt (show dev.bTag < 256 by omega)], by simp⟩
          · have hlen' :
                ((d :: ds).drop (io_buffer_size - USBTMC_HEADER_SIZE)).length
                  ≤ n := by
              have h2036 : io_buffer_size - USBTMC_HEADER_SIZE = 2036 := by
                norm_num [io_buffer_size, USBTMC_HEADER_SIZE]
              rw [List.length_drop]
              simp only [List.length_cons] at hlen ⊢
              omega
            obtain ⟨happ, hfr⟩ :=
              ih { dev with bTag_last_write := dev.bTag, bTag := nextTag dev.bTag }
                count ((d :: ds).drop (io_buffer_size - USBTMC_HEADER_SIZE)) _
                hdrop hlen' (by simpa using nextTag_le dev.bTag)
            refine ⟨?_, by simp⟩
            rw [lastTag_cons_of_ne _ _ hfr]
            exact happ
      · rename_i hge
        split <;> split <;> dsimp only
        · exact ⟨by simp [lastTag, devDepMsgOutHeader, complement8,
              Nat.mod_eq_of_lt (show dev.bTag < 256 by omega)], by simp⟩
        · rw [List.drop_length, write_loop_nil]
          exact ⟨by simp [lastTag, devDepMsgOutHeader, complement8,
              Nat.mod_eq_of_lt (show dev.bTag < 256 by omega)], by simp⟩
        · exact ⟨by simp [lastTag, devDepMsgOutHeader, complement8,
              Nat.mod_eq_of_lt (show dev.bTag < 256 by omega)], by simp⟩
        · rw [List.drop_length, write_loop_nil]
          exact ⟨by simp [lastTag, devDepMsgOutHeader, complement8,
              Nat.mod_eq_of_lt (show dev.bTag < 256 by omega)], by simp⟩

end Usbtmc

namespace Usbtmc

/-! ## READ_STATUS_BYTE lemmas -/

theorem read_stb_fast (dev : DeviceData) (fd : FileData)
    (ctrl : Int × List Nat) (w : WaitRes) (hs : fd.srq_asserted = true) :
    usbtmc488_ioctl_read_stb dev fd ctrl w
      = ⟨0, some fd.srq_byte, dev, { fd with srq_asserted := false }, []⟩ := by
  simp [usbtmc488_ioctl_read_stb, hs]

theorem read_stb_iin (dev : DeviceData) (fd : FileData)
    (ctrl : Int × List Nat) (w : WaitRes) (hs : fd.srq_asserted = false) :
    (usbtmc488_ioctl_read_stb dev fd ctrl w).dev.iin_bTag
      = nextIinTag dev.iin_bTag := by
  obtain ⟨rv0, bytes⟩ := ctrl
  simp only [usbtmc488_ioctl_read_stb, hs, Bool.false_eq_true, if_false]
  try dsimp only
  split
  · rfl
  · split
    · rfl
    · split
      · cases w <;> rfl
      · rfl

theorem read_stb_zombie (dev : DeviceData) (fd : FileData)
    (ctrl : Int × List Nat) (w : WaitRes) :
    (usbtmc488_ioctl_read_stb dev fd ctrl w).dev.zombie = dev.zombie := by
  obtain ⟨rv0, bytes⟩ := ctrl
  simp only [usbtmc488_ioctl_read_stb]
  split
  · rfl
  · dsimp only
    split
    · rfl
    · split
      · rfl
      · split
        · cases w <;> rfl
        · rfl

theorem read_stb_trace_slow (dev : DeviceData) (fd : FileData)
    (ctrl : Int × List Nat) (w : WaitRes) (hs : fd.srq_asserted = false) :
    (usbtmc488_ioctl_read_stb dev fd ctrl w).trace
      = [Ev.controlMsg USBTMC488_REQUEST_READ_STATUS_BYTE dev.iin_bTag
          dev.ifnum 3] := by
  obtain ⟨rv0, bytes⟩ := ctrl
  simp [usbtmc488_ioctl_read_stb, hs]

/-! ## Wrapper preservation lemmas -/

theorem usbtmc_read_zombie (dev : DeviceData) (fd : FileData) (count : Nat)
    (rq : Int) (script : List (Int × List Nat)) :
    (usbtmc_read dev fd count rq script).dev.zombie = dev.zombie := by
  simp only [usbtmc_read]
  split
  · rfl
  · split
    · rfl
    · dsimp only
      rw [read_loop_zombie]

theorem usbtmc_write_zombie (dev : DeviceData) (dat : List Nat)
    (script : List (Int × Nat)) :
    (usbtmc_write dev dat script).dev.zombie = dev.zombie := by
  simp only [usbtmc_write]
  split
  · rfl
  · rw [write_loop_zombie]

theorem usbtmc_ioctl_zombie (dev : DeviceData) (fd : FileData) (cmd : Cmd) :
    (usbtmc_ioctl dev fd cmd).2.1.zombie = dev.zombie := by
  by_cases hz : dev.zombie = true
  · simp [usbtmc_ioctl, hz]
  · cases cmd <;>
      simp only [usbtmc_ioctl, hz, Bool.false_eq_true, if_false,
        usbtmc_ioctl_clear_halt, usbtmc_ioctl_indicator_pulse,
        usbtmc_ioctl_request, usbtmc_ioctl_set_timeout,
        usbtmc_ioctl_eom_enable, usbtmc_ioctl_config_termc,
        usbtmc488_ioctl_simple, usbtmc488_ioctl_trigger] <;>
      (try dsimp only) <;>
      (try rw [read_stb_zombie]) <;>
      (repeat' split) <;> (first | rfl | simp_all)

theorem usbtmc_interrupt_zombie (dev : DeviceData) (files : List FileData)
    (b0 b1 : Nat) :
    (usbtmc_interrupt dev files b0 b1).1.zombie = dev.zombie := by
  simp only [usbtmc_interrupt]
  split
  · rfl
  · split <;> rfl

end Usbtmc

namespace Usbtmc

/-! ## Claim C10 -/

/-- C10: when a handle's srq_asserted flag is set, READ_STB takes the fast
path: it returns the stored srq_byte, issues no transport traffic (empty
trace, hence no control transfer), and leaves the device record — in
particular iin_bTag and iin_data_valid — unchanged; only the handle's
srq_asserted flag is cleared. -/
theorem C10_theorem (dev : DeviceData) (fd : FileData)
    (ctrl : Int × List Nat) (w : WaitRes) (hs : fd.srq_asserted = true) :
    (usbtmc488_ioctl_read_stb dev fd ctrl w).rv = 0
  ∧ (usbtmc488_ioctl_read_stb dev fd ctrl w).stb = some fd.srq_byte
  ∧ (usbtmc488_ioctl_read_stb dev fd ctrl w).trace = []
  ∧ (usbtmc488_ioctl_read_stb dev fd ctrl w).dev = dev
  ∧ (usbtmc488_ioctl_read_stb dev fd ctrl w).fd
      = { fd with srq_asserted := false } := by
  rw [read_stb_fast dev fd ctrl w hs]
  exact ⟨rfl, rfl, rfl, rfl, rfl⟩

/-- Witness for C10 at a concrete handle with a pending SRQ byte 0x42. -/
theorem C10_witness :
    (usbtmc488_ioctl_read_stb devA { fdA with srq_asserted := true, srq_byte := 66 }
        (0, []) WaitRes.timeout).rv = 0
  ∧ (usbtmc488_ioctl_read_stb devA { fdA with srq_asserted := true, srq_byte := 66 }
        (0, []) WaitRes.timeout).stb
      = some ({ fdA with srq_asserted := true, srq_byte := 66 } : FileData).srq_byte
  ∧ (usbtmc488_ioctl_read_stb devA { fdA with srq_asserted := true, srq_byte := 66 }
        (0, []) WaitRes.timeout).trace = []
  ∧ (usbtmc488_ioctl_read_stb devA { fdA with srq_asserted := true, srq_byte := 66 }
        (0, []) WaitRes.timeout).dev = devA
  ∧ (usbtmc488_ioctl_read_stb devA { fdA with srq_asserted := true, srq_byte := 66 }
        (0, []) WaitRes.timeout).fd
      = { ({ fdA with srq_asserted := true, srq_byte := 66 } : FileData) with
            srq_asserted := false } :=
  C10_theorem devA { fdA with srq_asserted := true, srq_byte := 66 }
    (0, []) WaitRes.timeout rfl

/-! ## Claim C7 -/

/-- C7: the iin_bTag counter always lies in [2, 127]: it starts at 2 at
probe, READ_STATUS_BYTE advances it by nextIinTag on every path that issued
the control request, and nextIinTag maps [2, 127] into [2, 127] (on
exceeding 127 it wraps to 2, so it never takes the SRQ value 1). -/
theorem C7_theorem (t : Nat) (dev : DeviceData) (fd : FileData)
    (ctrl : Int × List Nat) (w : WaitRes)
    (h1 : 2 ≤ t) (h2 : t ≤ 127) (hs : fd.srq_asserted = false) :
    usbtmc_probe_init.iin_bTag = 2
  ∧ 2 ≤ nextIinTag t ∧ nextIinTag t ≤ 127
  ∧ (usbtmc488_ioctl_read_stb dev fd ctrl w).dev.iin_bTag
      = nextIinTag dev.iin_bTag :=
  ⟨rfl, (nextIinTag_bounds t h1 h2).1, (nextIinTag_bounds t h1 h2).2,
   read_stb_iin dev fd ctrl w hs⟩

/-- Witness for C7 at the wrap point t = 127 and a concrete failing-free
READ_STB call. -/
theorem C7_witness :
    usbtmc_probe_init.iin_bTag = 2
  ∧ 2 ≤ nextIinTag 127 ∧ nextIinTag 127 ≤ 127
  ∧ (usbtmc488_ioctl_read_stb devA fdA (0, [1, 0, 5]) WaitRes.timeout).dev.iin_bTag
      = nextIinTag devA.iin_bTag :=
  C7_theorem 127 devA fdA (0, [1, 0, 5]) WaitRes.timeout
    (by decide) (by decide) rfl

/-! ## Claim C1 (corrected) -/

/-- C1 counterexample: devA has no USB488 capabilities at all
(usb488_caps = 0), its handle has no pending SRQ, and yet READ_STB does
not fail with a capability-absent error — it returns 0 and performs a
control transfer (non-empty trace). -/
theorem C1_counterexample :
    devA.usb488_caps &&& USBTMC488_CAPABILITY_SIMPLE = 0
  ∧ (usbtmc488_ioctl_read_stb devA fdA (3, [1, 0, 77]) WaitRes.timeout).rv = 0
  ∧ (usbtmc488_ioctl_read_stb devA fdA (3, [1, 0, 77]) WaitRes.timeout).trace
      ≠ [] := by
  decide

/-- C1 (amended): READ_STB performs no capability check — whenever the
handle has no pending SRQ it issues the READ_STATUS_BYTE control request
even on a device whose usb488_caps lacks the simple bit; the capability
gate belongs to the USB488 simple requests (REN_CONTROL / GOTO_LOCAL /
LOCAL_LOCKOUT), which fail with EINVAL and no transport traffic when the
simple bit is clear. -/
theorem C1_theorem (dev : DeviceData) (fd : FileData) (ctrl : Int × List Nat)
    (w : WaitRes) (val cmd : Nat)
    (hs : fd.srq_asserted = false)
    (hc : dev.usb488_caps &&& USBTMC488_CAPABILITY_SIMPLE = 0) :
    (usbtmc488_ioctl_read_stb dev fd ctrl w).trace
      = [Ev.controlMsg USBTMC488_REQUEST_READ_STATUS_BYTE dev.iin_bTag
          dev.ifnum 3]
  ∧ usbtmc488_ioctl_simple dev val cmd ctrl = (-EINVAL, []) := by
  refine ⟨read_stb_trace_slow dev fd ctrl w hs, ?_⟩
  obtain ⟨rv0, bytes⟩ := ctrl
  simp [usbtmc488_ioctl_simple, hc]

/-- Witness for C1 on the capability-free devA. -/
theorem C1_witness :
    (usbtmc488_ioctl_read_stb devA fdA (3, [1, 0, 77]) WaitRes.timeout).trace
      = [Ev.controlMsg USBTMC488_REQUEST_READ_STATUS_BYTE devA.iin_bTag
          devA.ifnum 3]
  ∧ usbtmc488_ioctl_simple devA 1 USBTMC488_REQUEST_REN_CONTROL (1, [1])
      = (-EINVAL, []) :=
  C1_theorem devA fdA (3, [1, 0, 77]) WaitRes.timeout 1
    USBTMC488_REQUEST_REN_CONTROL rfl (by decide)

/-! ## Claim C8 -/

/-- C8: an SRQ notification (first byte 0x81) leaves the device record
unchanged and sets srq_byte to the second byte and srq_asserted on every
open handle; the first subsequent READ_STB on any one handle returns that
handle's stored srq_byte with no transport traffic and clears srq_asserted
for that handle only, every other handle's slot being untouched. -/
theorem C8_theorem (dev : DeviceData) (files : List FileData) (b1 i j : Nat)
    (ctrl : Int × List Nat) (w : WaitRes)
    (hi : i < files.length) (hj : j < files.length) (hij : j ≠ i) :
    (usbtmc_interrupt dev files 0x81 b1).1 = dev
  ∧ (usbtmc_interrupt dev files 0x81 b1).2
      = files.map (fun f => { f with srq_byte := b1, srq_asserted := true })
  ∧ (∀ f ∈ (usbtmc_interrupt dev files 0x81 b1).2,
      f.srq_asserted = true ∧ f.srq_byte = b1)
  ∧ usbtmc488_ioctl_read_stb dev
        ((usbtmc_interrupt dev files 0x81 b1).2.getD i default) ctrl w
      = ⟨0, some b1, dev,
         { (usbtmc_interrupt dev files 0x81 b1).2.getD i default with
             srq_asserted := false }, []⟩
  ∧ ((usbtmc_interrupt dev files 0x81 b1).2.set i
        ((usbtmc488_ioctl_read_stb dev
          ((usbtmc_interrupt dev files 0x81 b1).2.getD i default) ctrl w).fd)).getD
        j default
      = (usbtmc_interrupt dev files 0x81 b1).2.getD j default := by
  have hint : usbtmc_interrupt dev files 0x81 b1
      = (dev, files.map fun f => { f with srq_byte := b1, srq_asserted := true }) := by
    simp [usbtmc_interrupt]
  have hlen : i < (files.map
      (fun f => { f with srq_byte := b1, srq_asserted := true })).length := by
    simpa using hi
  have hfd : ((usbtmc_interrupt dev files 0x81 b1).2.getD i default).srq_asserted
      = true := by
    rw [hint]
    rw [getD_map_of_lt _ files i hi default default]
  have hbyte : ((usbtmc_interrupt dev files 0x81 b1).2.getD i default).srq_byte
      = b1 := by
    rw [hint]
    rw [getD_map_of_lt _ files i hi default default]
  refine ⟨by rw [hint], by rw [hint], ?_, ?_, ?_⟩
  · intro f hf
    rw [hint] at hf
    simp only [List.mem_map] at hf
    obtain ⟨a, _, rfl⟩ := hf
    exact ⟨rfl, rfl⟩
  · rw [read_stb_fast _ _ _ _ hfd]
    simp
    simpa using hbyte
  · rw [read_stb_fast _ _ _ _ hfd]
    exact getD_set_ne _ i j (fun h => hij h.symm) _ _

/-- Witness for C8 with two open handles, SRQ byte 0x42, i = 0, j = 1. -/
theorem C8_witness :
    (usbtmc_interrupt devA [fdA, fdA] 0x81 66).1 = devA
  ∧ (usbtmc_interrupt devA [fdA, fdA] 0x81 66).2
      = [fdA, fdA].map (fun f => { f with srq_byte := 66, srq_asserted := true })
  ∧ (∀ f ∈ (usbtmc_interrupt devA [fdA, fdA] 0x81 66).2,
      f.srq_asserted = true ∧ f.srq_byte = 66)
  ∧ usbtmc488_ioctl_read_stb devA
        ((usbtmc_interrupt devA [fdA, fdA] 0x81 66).2.getD 0 default)
        (0, []) WaitRes.timeout
      = ⟨0, some 66, devA,
         { (usbtmc_interrupt devA [fdA, fdA] 0x81 66).2.getD 0 default with
             srq_asserted := false }, []⟩
  ∧ ((usbtmc_interrupt devA [fdA, fdA] 0x81 66).2.set 0
        ((usbtmc488_ioctl_read_stb devA
          ((usbtmc_interrupt devA [fdA, fdA] 0x81 66).2.getD 0 default)
          (0, []) WaitRes.timeout).fd)).getD 1 default
      = (usbtmc_interrupt devA [fdA, fdA] 0x81 66).2.getD 1 default :=
  C8_theorem devA [fdA, fdA] 66 0 1 (0, []) WaitRes.timeout
    (by decide) (by decide) (by decide)

end Usbtmc

namespace Usbtmc

/-! ## Claim C9 -/

/-- C9: once zombie is set at disconnect it never becomes false again — no
modelled operation (read, write, ioctl, interrupt, READ_STB) ever changes
the flag, and disconnect sets it — and every read, write or ioctl begun on
a zombie device returns -ENODEV with no transport traffic and no state
change. -/
theorem C9_theorem (dz d : DeviceData) (fd : FileData) (count : Nat) (rq : Int)
    (rs : List (Int × List Nat)) (dat : List Nat) (ws : List (Int × Nat))
    (cmd : Cmd) (ctrl : Int × List Nat) (w : WaitRes) (b0 b1 : Nat)
    (files : List FileData) (hz : dz.zombie = true) :
    usbtmc_read dz fd count rq rs = ⟨-ENODEV, [], dz, []⟩
  ∧ usbtmc_write dz dat ws = ⟨-ENODEV, [], dz, [], []⟩
  ∧ usbtmc_ioctl dz fd cmd = (-ENODEV, dz, fd, [])
  ∧ usbtmc_probe_init.zombie = false
  ∧ (usbtmc_disconnect d).zombie = true
  ∧ (usbtmc_read d fd count rq rs).dev.zombie = d.zombie
  ∧ (usbtmc_write d dat ws).dev.zombie = d.zombie
  ∧ (usbtmc_ioctl d fd cmd).2.1.zombie = d.zombie
  ∧ (usbtmc_interrupt d files b0 b1).1.zombie = d.zombie
  ∧ (usbtmc488_ioctl_read_stb d fd ctrl w).dev.zombie = d.zombie := by
  refine ⟨?_, ?_, ?_, rfl, rfl, usbtmc_read_zombie d fd count rq rs,
    usbtmc_write_zombie d dat ws, usbtmc_ioctl_zombie d fd cmd,
    usbtmc_interrupt_zombie d files b0 b1, read_stb_zombie d fd ctrl w⟩
  · simp [usbtmc_read, hz]
  · simp [usbtmc_write, hz]
  · simp [usbtmc_ioctl, hz]

/-- Witness for C9 on a disconnected devA. -/
theorem C9_witness :
    usbtmc_read (usbtmc_disconnect devA) fdA 4 0 [] = ⟨-ENODEV, [], usbtmc_disconnect devA, []⟩
  ∧ usbtmc_write (usbtmc_disconnect devA) [7] [] = ⟨-ENODEV, [], usbtmc_disconnect devA, [], []⟩
  ∧ usbtmc_ioctl (usbtmc_disconnect devA) fdA Cmd.getTimeout
      = (-ENODEV, usbtmc_disconnect devA, fdA, [])
  ∧ usbtmc_probe_init.zombie = false
  ∧ (usbtmc_disconnect devA).zombie = true
  ∧ (usbtmc_read devA fdA 4 0 []).dev.zombie = devA.zombie
  ∧ (usbtmc_write devA [7] []).dev.zombie = devA.zombie
  ∧ (usbtmc_ioctl devA fdA Cmd.getTimeout).2.1.zombie = devA.zombie
  ∧ (usbtmc_interrupt devA [fdA] 0x81 66).1.zombie = devA.zombie
  ∧ (usbtmc488_ioctl_read_stb devA fdA (0, [1, 0, 5]) WaitRes.timeout).dev.zombie
      = devA.zombie :=
  C9_theorem (usbtmc_disconnect devA) devA fdA 4 0 [] [7] [] Cmd.getTimeout
    (0, [1, 0, 5]) WaitRes.timeout 0x81 66 [fdA] rfl

/-! ## Claim C3 (corrected) -/

/-- C3 counterexample: a successful 4-byte read on devA (bTag = 5).  The
read succeeds (returns 4) yet bTag_last_read ends up 6 — the bTag value
AFTER the request advanced it — not the value 5 that bTag held at the
moment the read was initiated, refuting the claim as stated. -/
theorem C3_counterexample :
    (usbtmc_read devA fdA 4 0
        [(0, [2, 5, 250, 0, 4, 0, 0, 0, 1, 0, 0, 0, 9, 8, 7, 6])]).rv = 4
  ∧ (usbtmc_read devA fdA 4 0
        [(0, [2, 5, 250, 0, 4, 0, 0, 0, 1, 0, 0, 0, 9, 8, 7, 6])]).dev.bTag_last_read
      = 6
  ∧ (usbtmc_read devA fdA 4 0
        [(0, [2, 5, 250, 0, 4, 0, 0, 0, 1, 0, 0, 0, 9, 8, 7, 6])]).dev.bTag_last_read
      ≠ devA.bTag := by
  decide

/-- C3 (amended): after any read that actually enters the bulk-in drain
loop (request sent, count nonzero), bTag_last_read equals nextTag of the
bTag value at initiation — the current bTag, one past the tag carried by
the request — not the initiation-time value itself; and after any write,
bTag_last_write equals the tag byte carried by the last chunk framed. -/
theorem C3_theorem (dev : DeviceData) (fd : FileData) (count : Nat) (rq : Int)
    (rs : List (Int × List Nat)) (dat : List Nat) (ws : List (Int × Nat))
    (hz : dev.zombie = false) (hrq : 0 ≤ rq) (hc : count ≠ 0)
    (hd : dat ≠ []) (hbt : dev.bTag ≤ 255) :
    (usbtmc_read dev fd count rq rs).dev.bTag_last_read = nextTag dev.bTag
  ∧ (usbtmc_read dev fd count rq rs).dev.bTag_last_read
      = (usbtmc_read dev fd count rq rs).dev.bTag
  ∧ lastTag (usbtmc_write dev dat ws).frames
      = some (usbtmc_write dev dat ws).dev.bTag_last_write := by
  have hnz : ¬ rq < 0 := by omega
  refine ⟨?_, ?_, ?_⟩
  · simp only [usbtmc_read, hz, Bool.false_eq_true, if_false, if_neg hnz]
    rw [read_loop_last_read]
    simp [hc]
  · simp only [usbtmc_read, hz, Bool.false_eq_true, if_false, if_neg hnz]
    rw [read_loop_last_read, read_loop_bTag]
    simp [hc]
  · simp only [usbtmc_write, hz, Bool.false_eq_true, if_false]
    exact (write_loop_lastTag dat.length dev dat.length dat ws hd
      (Nat.le_refl _) hbt).1

/-- Witness for C3 on devA with a successful read and a one-chunk write. -/
theorem C3_witness :
    (usbtmc_read devA fdA 4 0
        [(0, [2, 5, 250, 0, 4, 0, 0, 0, 1, 0, 0, 0, 9, 8, 7, 6])]).dev.bTag_last_read
      = nextTag devA.bTag
  ∧ (usbtmc_read devA fdA 4 0
        [(0, [2, 5, 250, 0, 4, 0, 0, 0, 1, 0, 0, 0, 9, 8, 7, 6])]).dev.bTag_last_read
      = (usbtmc_read devA fdA 4 0
          [(0, [2, 5, 250, 0, 4, 0, 0, 0, 1, 0, 0, 0, 9, 8, 7, 6])]).dev.bTag
  ∧ lastTag (usbtmc_write devA [7, 7] [(0, 16)]).frames
      = some (usbtmc_write devA [7, 7] [(0, 16)]).dev.bTag_last_write :=
  C3_theorem devA fdA 4 0
    [(0, [2, 5, 250, 0, 4, 0, 0, 0, 1, 0, 0, 0, 9, 8, 7, 6])] [7, 7] [(0, 16)]
    rfl (by decide) (by decide) (by decide) (by decide)

end Usbtmc

namespace Usbtmc

/-! ## Claim C2 (corrected) -/

/-- C2 counterexample: devAbort has auto_abort set and the initial
REQUEST_DEV_DEP_MSG_IN send fails with -110; the read returns the fault
having run ABORT_BULK_OUT — ABORT_BULK_IN appears nowhere in the trace —
refuting the claim that the ABORT_BULK_IN state machine is run for every
fault including the initial send failure. -/
theorem C2_counterexample :
    (usbtmc_read devAbort fdA 4 (-110) []).rv = -110
  ∧ Ev.abortBulkIn ∉ (usbtmc_read devAbort fdA 4 (-110) []).trace
  ∧ Ev.abortBulkOut ∈ (usbtmc_read devAbort fdA 4 (-110) []).trace := by
  decide

set_option maxHeartbeats 1600000 in
/-- C2 (amended): with auto_abort set, a transport or protocol fault on the
first bulk-in reply runs ABORT_BULK_IN before the read returns (third
conjunct), and any bulk-in transport fault that makes the read return a
negative error also has ABORT_BULK_IN in its trace (fourth conjunct); but
on failure of the initial REQUEST_DEV_DEP_MSG_IN send the read runs
ABORT_BULK_OUT instead, and returns the original fault (first two
conjuncts). -/
theorem C2_theorem (dev : DeviceData) (fd : FileData) (count : Nat)
    (rqBad rqOk e : Int) (bs : List Nat) (rest script : List (Int × List Nat))
    (hz : dev.zombie = false) (ha : dev.auto_abort = true)
    (hbad : rqBad < 0) (hok : 0 ≤ rqOk) (hcount : count ≠ 0)
    (hfault : FirstChunkFault e bs count dev.bTag) :
    (usbtmc_read dev fd count rqBad script).rv = rqBad
  ∧ (usbtmc_read dev fd count rqBad script).trace
      = [Ev.bulkOutSend
           (reqDevDepMsgInFrame dev.bTag count fd.TermCharEnabled fd.TermChar),
         Ev.abortBulkOut]
  ∧ (usbtmc_read dev fd count 0 ((e, bs) :: rest)).trace
      = [Ev.bulkOutSend
           (reqDevDepMsgInFrame dev.bTag count fd.TermCharEnabled fd.TermChar),
         Ev.bulkInRecv, Ev.abortBulkIn]
  ∧ ((usbtmc_read dev fd count rqOk script).rv < 0 →
       Ev.abortBulkIn ∈ (usbtmc_read dev fd count rqOk script).trace) := by
  refine ⟨?_, ?_, ?_, ?_⟩
  · simp [usbtmc_read, hz, if_pos hbad, ha]
  · simp [usbtmc_read, hz, if_pos hbad, ha]
  · simp only [usbtmc_read]
    rw [if_neg (show ¬dev.zombie = true by simp [hz]),
        if_neg (show ¬ (0 : Int) < 0 by omega)]
    have hloop : (usbtmc_read_loop
        { dev with bTag_last_write := dev.bTag, bTag := nextTag dev.bTag }
        count count 0 ((e, bs) :: rest)).trace
        = [Ev.bulkInRecv, Ev.abortBulkIn] := by
      simp only [usbtmc_read_loop, if_neg hcount, if_true]
      by_cases c1 : e < 0
      · rw [if_pos c1]; simp [ha]
      · rw [if_neg c1]
        by_cases c2 : bs.length < USBTMC_HEADER_SIZE
        · rw [if_pos c2]; simp [ha]
        · rw [if_neg c2]
          by_cases c3 : bs.getD 0 0 ≠ 2
          · rw [if_pos c3]; simp [ha]
          · rw [if_neg c3]
            by_cases c4 : bs.getD 1 0 ≠ dev.bTag
            · rw [if_pos c4]; simp [ha]
            · rw [if_neg c4]
              by_cases c5 : count < readNChars bs
              · rw [if_pos c5]; simp [ha]
              · rcases hfault with f | f | f | f | f
                · exact absurd f c1
                · exact absurd f c2
                · exact absurd f c3
                · exact absurd f c4
                · exact absurd f c5
    simp [hloop]
  · simp only [usbtmc_read, hz, Bool.false_eq_true, if_false,
      if_neg (show ¬ rqOk < 0 by omega)]
    intro hlt
    exact List.mem_cons_of_mem _
      (read_loop_abort script _ count count 0 (by simpa using ha) hlt)

/-- Witness for C2 on devAbort: a failed request send, an empty (hence
short) first reply, and the transport-fault implication. -/
theorem C2_witness :
    (usbtmc_read devAbort fdA 4 (-110) []).rv = -110
  ∧ (usbtmc_read devAbort fdA 4 (-110) []).trace
      = [Ev.bulkOutSend
           (reqDevDepMsgInFrame devAbort.bTag 4 fdA.TermCharEnabled fdA.TermChar),
         Ev.abortBulkOut]
  ∧ (usbtmc_read devAbort fdA 4 0 [((0 : Int), ([] : List Nat))]).trace
      = [Ev.bulkOutSend
           (reqDevDepMsgInFrame devAbort.bTag 4 fdA.TermCharEnabled fdA.TermChar),
         Ev.bulkInRecv, Ev.abortBulkIn]
  ∧ ((usbtmc_read devAbort fdA 4 0 []).rv < 0 →
       Ev.abortBulkIn ∈ (usbtmc_read devAbort fdA 4 0 []).trace) :=
  C2_theorem devAbort fdA 4 (-110) 0 0 [] [] [] rfl rfl
    (by decide) (by decide) (by decide) (by decide)

/-! ## Claim C6 -/

/-- C6: every bulk-out frame emitted — the read-request frame, every chunk
frame built by the write engine, and the TRIGGER frame — carries a
non-zero tag at offset 1 and its u8 one's complement at offset 2, given
the device tag invariant 1 ≤ bTag ≤ 255; the invariant holds at probe
(bTag = 1) and is preserved by the tag advance, which never yields 0. -/
theorem C6_theorem (t : Nat) (dev : DeviceData) (fd : FileData) (count : Nat)
    (rq : Int) (rs : List (Int × List Nat)) (dat : List Nat)
    (ws : List (Int × Nat)) (resp : Int × Nat)
    (h1 : 1 ≤ dev.bTag) (h2 : dev.bTag ≤ 255) :
    usbtmc_probe_init.bTag = 1
  ∧ 1 ≤ nextTag t ∧ nextTag t ≤ 255
  ∧ (∀ bs, Ev.bulkOutSend bs ∈ (usbtmc_read dev fd count rq rs).trace →
      FrameTagOk bs)
  ∧ (∀ f, f ∈ (usbtmc_write dev dat ws).frames → FrameTagOk f)
  ∧ (∀ bs, Ev.bulkOutSend bs ∈ (usbtmc488_ioctl_trigger dev resp).2.2 →
      FrameTagOk bs) := by
  refine ⟨rfl, nextTag_pos t, nextTag_le t, ?_, ?_, ?_⟩
  · intro bs hm
    by_cases hz : dev.zombie = true
    · simp [usbtmc_read, hz] at hm
    · simp only [usbtmc_read, hz, Bool.false_eq_true, if_false] at hm
      split at hm
      · rcases List.mem_cons.mp hm with h' | h'
        · simp only [Ev.bulkOutSend.injEq] at h'
          subst h'
          exact frameTagOk_req _ _ _ _ h1 h2
        · split at h' <;> simp_all
      · rcases List.mem_cons.mp hm with h' | h'
        · simp only [Ev.bulkOutSend.injEq] at h'
          subst h'
          exact frameTagOk_req _ _ _ _ h1 h2
        · rcases read_loop_ev rs _ _ _ _ _ h' with h'' | h'' <;> simp at h''
  · intro f hm
    by_cases hz : dev.zombie = true
    · simp [usbtmc_write, hz] at hm
    · simp only [usbtmc_write, hz, Bool.false_eq_true, if_false] at hm
      exact write_loop_frames _ _ _ _ _ _ h1 h2 hm
  · intro bs hm
    simp only [usbtmc488_ioctl_trigger] at hm
    rcases List.mem_cons.mp hm with h' | h'
    · simp only [Ev.bulkOutSend.injEq] at h'
      subst h'
      exact frameTagOk_trigger _ h1 h2
    · simp at h'

/-- Witness for C6 on devA (bTag = 5): its request frame, its one write
chunk frame, and its trigger frame are all well-tagged, and the advance
stays in range at the wrap value 255. -/
theorem C6_witness :
    usbtmc_probe_init.bTag = 1
  ∧ 1 ≤ nextTag 255 ∧ nextTag 255 ≤ 255
  ∧ FrameTagOk (reqDevDepMsgInFrame devA.bTag 4 fdA.TermCharEnabled fdA.TermChar)
  ∧ FrameTagOk (devDepMsgOutHeader devA.bTag 2 1
      ++ ([7, 7].take 2 ++ List.replicate 2 0))
  ∧ FrameTagOk (triggerFrame devA.bTag) :=
  have H := C6_theorem 255 devA fdA 4 0 [] [7, 7] [(0, 16)] (0, 12)
    (by decide) (by decide)
  ⟨H.1, H.2.1, H.2.2.1, H.2.2.2.1 _ (by decide),
   H.2.2.2.2.1 _ (by decide), H.2.2.2.2.2 _ (by decide)⟩

/-! ## Claim C4 (code_bug) -/

/-- C4 evaluated at the failing input: an 8-byte chunk on devA (bTag = 5)
whose bulk-out send is split by the device into 8 then 12 accepted bytes.
The framed chunk is 20 bytes; the engine's retry resubmits the buffer
START with the remaining length, so the endpoint receives
frame.take 8 ++ frame.take 12 — the header twice and only the last
payload bytes never — instead of the framed chunk exactly once, while the
write still reports full success (returns 8). -/
theorem C4_theorem :
    (usbtmc_write devA [11, 22, 33, 44, 55, 66, 77, 88] [(0, 8), (0, 12)]).rv = 8
  ∧ (usbtmc_write devA [11, 22, 33, 44, 55, 66, 77, 88] [(0, 8), (0, 12)]).frames
      = [devDepMsgOutHeader 5 8 1 ++ [11, 22, 33, 44, 55, 66, 77, 88]]
  ∧ (usbtmc_write devA [11, 22, 33, 44, 55, 66, 77, 88] [(0, 8), (0, 12)]).sent
      ≠ devDepMsgOutHeader 5 8 1 ++ [11, 22, 33, 44, 55, 66, 77, 88]
  ∧ (usbtmc_write devA [11, 22, 33, 44, 55, 66, 77, 88] [(0, 8), (0, 12)]).sent
      = (devDepMsgOutHeader 5 8 1 ++ [11, 22, 33, 44, 55, 66, 77, 88]).take 8
        ++ (devDepMsgOutHeader 5 8 1 ++ [11, 22, 33, 44, 55, 66, 77, 88]).take 12 := by
  decide

/-! ## Claim C5 (code_bug) -/

/-- C5 evaluated on devA (bTag = 5, request tag 5, 4 bytes requested): a
reply meeting all four conditions (length ≥ 12, MsgID 2, matching tag,
n_characters ≤ request) is accepted and its data delivered; but each
violation — wrong MsgID, wrong tag, n_characters above the request, short
first packet — makes the read return 0 with no data instead of failing
with an error: retval still holds the successful usb_bulk_msg result when
the code jumps to exit. -/
theorem C5_theorem :
    (usbtmc_read devA fdA 4 0
        [(0, [2, 5, 250, 0, 4, 0, 0, 0, 1, 0, 0, 0, 9, 8, 7, 6])]).rv = 4
  ∧ (usbtmc_read devA fdA 4 0
        [(0, [2, 5, 250, 0, 4, 0, 0, 0, 1, 0, 0, 0, 9, 8, 7, 6])]).delivered
      = [9, 8, 7, 6]
  ∧ (usbtmc_read devA fdA 4 0
        [(0, [3, 5, 250, 0, 0, 0, 0, 0, 1, 0, 0, 0])]).rv = 0
  ∧ (usbtmc_read devA fdA 4 0
        [(0, [3, 5, 250, 0, 0, 0, 0, 0, 1, 0, 0, 0])]).delivered = []
  ∧ (usbtmc_read devA fdA 4 0
        [(0, [2, 9, 246, 0, 0, 0, 0, 0, 1, 0, 0, 0])]).rv = 0
  ∧ (usbtmc_read devA fdA 4 0
        [(0, [2, 5, 250, 0, 5, 0, 0, 0, 1, 0, 0, 0, 1, 2, 3, 4, 5])]).rv = 0
  ∧ (usbtmc_read devA fdA 4 0 [(0, [2, 5])]).rv = 0 := by
  decide

end Usbtmc
